import Mathlib

/-!
Shallow embedding of the NearMart cart-to-order commitment pipeline.

Sources embedded:
- src/models/Product.js   (updateStock, addStock, setAvailability)
- src/models/Cart.js      (addItem, clearCart, verifyAvailability, the
                           subtotal virtual, and the pre-save single-retailer hook)
- src/models/Order.js     (createFromCart, updateStatus, cancelOrder,
                           updatePayment, the pre-save order-number hook)
- src/routes/retailer.js  (PUT /orders/:id/status handler)
- src/docs/authentication-api.md (POST /order checkout handler)

Money is modelled as Rat; JS numbers used as quantities/stock are modelled
as Int; identifiers (ObjectId) as Nat; timestamps as Nat passed explicitly.
Persistence is explicit state passing: each operation returns the persisted
state, and a thrown JS error is an `Except.error` carrying the error kind
that corresponds to the thrown message string (every throw site in the
source throws a bare `Error` with a fixed message and no payload).
-/

namespace NearMart

/-- One error kind per distinct throw site / early-return message in the source. -/
inductive Err where
  | productNotFound
  | unavailableOrInsufficient
  | insufficientStock
  | invalidQuantity
  | cartNotFound
  | itemNotFoundInCart
  | emptyCart
  | itemsUnavailable
  | crossRetailer
  | duplicateOrderNumber
  | paymentInfoNotFound
  | cannotCancelDelivered
  | populateFailure
deriving DecidableEq, Repr

/-- Product record (src/models/Product.js schema fields used by the core). -/
structure Product where
  pid : Nat
  name : String
  price : Rat
  stock : Int
  isAvailable : Bool
  retailer : Nat
  images : List String
deriving DecidableEq, Repr

/-- Retailer record (only the fields the pipeline reads via populate). -/
structure Retailer where
  rid : Nat
  storeName : String
deriving DecidableEq, Repr

/-- Cart line item sub-document (src/models/Cart.js CartItemSchema). -/
structure CartItem where
  product : Nat
  quantity : Int
  price : Rat
  productName : String
  productImage : String
  retailerId : Nat
deriving DecidableEq, Repr

/-- Cart document (src/models/Cart.js CartSchema). -/
structure Cart where
  customer : Nat
  retailer : Option Nat
  items : List CartItem
  couponCode : Option String
  discount : Rat
deriving DecidableEq, Repr

/-- Order status enumeration (src/models/Order.js). -/
inductive OrderStatus where
  | pending
  | confirmed
  | processing
  | out_for_delivery
  | delivered
  | cancelled
deriving DecidableEq, Repr

/-- Payment method enumeration (src/models/Order.js PaymentSchema). -/
inductive PayMethod where
  | credit_card
  | debit_card
  | paypal
  | cash_on_delivery
  | wallet
deriving DecidableEq, Repr

/-- Payment status enumeration (src/models/Order.js PaymentSchema). -/
inductive PayStatus where
  | pending
  | completed
  | failed
  | refunded
deriving DecidableEq, Repr

/-- Status history entry (src/models/Order.js StatusHistorySchema). -/
structure StatusEntry where
  status : OrderStatus
  timestamp : Nat
  note : String
deriving DecidableEq, Repr

/-- Payment sub-document (src/models/Order.js PaymentSchema). -/
structure Payment where
  method : PayMethod
  transactionId : Option String
  status : PayStatus
  amount : Rat
  paidAt : Option Nat
deriving DecidableEq, Repr

/-- Delivery sub-document (src/models/Order.js DeliverySchema); the address is
modelled as one plain string since no claim inspects its parts. -/
structure Delivery where
  address : String
  contactPhone : String
  instructions : Option String
  expectedDeliveryDate : Option Nat
  actualDeliveryDate : Option Nat
  trackingNumber : Option String
deriving DecidableEq, Repr

/-- Order line item (src/models/Order.js OrderItemSchema). -/
structure OrderItem where
  product : Nat
  quantity : Int
  price : Rat
  productName : String
  productImage : String
  retailer : Nat
  retailerName : String
deriving DecidableEq, Repr

/-- Order document (src/models/Order.js OrderSchema). -/
structure Order where
  customer : Nat
  orderNumber : String
  items : List OrderItem
  subtotal : Rat
  discount : Rat
  tax : Rat
  deliveryFee : Rat
  total : Rat
  status : OrderStatus
  statusHistory : List StatusEntry
  payment : Option Payment
  delivery : Option Delivery
  couponCode : Option String
  cancelReason : Option String
deriving DecidableEq, Repr

/-- The persistent store: product catalog, retailer records, order records. -/
structure Store where
  products : List Product
  retailers : List Retailer
  orders : List Order
deriving DecidableEq, Repr

/-- Model.findById for products. -/
def findProduct (ps : List Product) (productId : Nat) : Option Product :=
  ps.find? (fun p => p.pid == productId)

/-- Persisting an updated product document (replace by id). -/
def saveProduct (ps : List Product) (p : Product) : List Product :=
  ps.map (fun q => if q.pid == p.pid then p else q)

/-- Model.findById for retailers. -/
def findRetailer (rs : List Retailer) (retailerId : Nat) : Option Retailer :=
  rs.find? (fun r => r.rid == retailerId)

/-- Product.updateStock (src/models/Product.js lines 96 to 109): find the
product, fail when absent, fail when stock is less than the quantity,
otherwise subtract and persist. -/
def updateStock (s : Store) (productId : Nat) (quantity : Int) : Except Err Store :=
  match findProduct s.products productId with
  | none => .error .productNotFound
  | some product =>
    if product.stock < quantity then .error .insufficientStock
    else .ok { s with products := saveProduct s.products { product with stock := product.stock - quantity } }

/-- JS rounding to two decimals: Math.round(x * 100) / 100, where Math.round
is floor of x plus one half; also models toFixed(2) on the nonnegative
amounts the pipeline rounds. -/
def round2 (q : Rat) : Rat :=
  ((⌊q * 100 + 1 / 2⌋ : Int) : Rat) / 100

/-- Cart subtotal virtual (src/models/Cart.js lines 69 to 73). -/
def Cart.subtotal (c : Cart) : Rat :=
  c.items.foldl (fun total i => total + i.price * (i.quantity : Rat)) 0

/-- One entry of the structured availability-failure list
(src/models/Cart.js verifyAvailability push). -/
structure UnavailableItem where
  productId : Nat
  productName : String
  requested : Int
  available : Int
  isAvailable : Bool
deriving DecidableEq, Repr

/-- Structured result of Cart.verifyAvailability. -/
structure VerifyResult where
  isValid : Bool
  unavailableItems : List UnavailableItem
deriving DecidableEq, Repr

/-- The per-line check inside verifyAvailability: a missing product reports
available 0 and isAvailable false; an existing product that is flagged
unavailable or short on stock reports its current stock and flag. -/
def checkItem (ps : List Product) (i : CartItem) : Option UnavailableItem :=
  match findProduct ps i.product with
  | none => some ⟨i.product, i.productName, i.quantity, 0, false⟩
  | some p =>
    if !p.isAvailable || p.stock < i.quantity then
      some ⟨i.product, i.productName, i.quantity, p.stock, p.isAvailable⟩
    else none

/-- Cart.verifyAvailability (src/models/Cart.js lines 193 to 215). -/
def verifyAvailability (ps : List Product) (c : Cart) : VerifyResult :=
  let unavailable := c.items.filterMap (checkItem ps)
  ⟨unavailable.isEmpty, unavailable⟩

/-- CartSchema pre-save hook (src/models/Cart.js lines 217 to 240): an empty
cart passes; otherwise every item must share the retailerId of the first item, and
the cart retailer field is forced to it; a mismatch rejects the save. -/
def cartPreSave (c : Cart) : Except Err Cart :=
  match c.items with
  | [] => .ok c
  | first :: rest =>
    if rest.all (fun i => i.retailerId == first.retailerId) then
      .ok { c with retailer := some first.retailerId }
    else .error .crossRetailer

/-- In-place quantity bump used by the existing-line branch of addItem: the first
line matching the product gets quantity increased and price refreshed. -/
def bumpItem (productId : Nat) (quantity : Int) (price : Rat) :
    List CartItem → List CartItem
  | [] => []
  | i :: rest =>
    if i.product == productId then
      { i with quantity := i.quantity + quantity, price := price } :: rest
    else i :: bumpItem productId quantity price rest

/-- Cart.addItem (src/models/Cart.js lines 99 to 141): look up the product,
fail when absent or not orderable, merge into an existing line or append a
new one, then save (running the pre-save single-retailer hook). The returned
cart is the persisted document; an error persists nothing. -/
def addItem (ps : List Product) (c : Cart) (productId : Nat) (quantity : Int) :
    Except Err Cart :=
  match findProduct ps productId with
  | none => .error .productNotFound
  | some product =>
    if !product.isAvailable || product.stock < quantity then
      .error .unavailableOrInsufficient
    else if c.items.any (fun i => i.product == productId) then
      cartPreSave { c with items := bumpItem productId quantity product.price c.items }
    else
      cartPreSave
        { c with
          items := c.items ++
            [⟨productId, quantity, product.price, product.name,
              product.images.headD "", product.retailer⟩],
          retailer := c.retailer.orElse (fun _ => some product.retailer) }

/-- Cart.clearCart (src/models/Cart.js lines 184 to 190). -/
def clearCart (c : Cart) : Cart :=
  { c with items := [], discount := 0, couponCode := none }

/-- Left-pad a number below 10000 to four digits, as padStart(4, zero). -/
def pad4 (n : Nat) : String :=
  let s := toString (n % 10000)
  String.mk (List.replicate (4 - s.length) '0') ++ s

/-- Order number generation inside the OrderSchema pre-save hook
(src/models/Order.js lines 170 to 178): NM- then the YYMMDD date code then
a dash then a four-digit random suffix. The date code and the random draw are
explicit parameters. -/
def genOrderNumber (dateCode : String) (rand : Nat) : String :=
  "NM-" ++ dateCode ++ "-" ++ pad4 rand

/-- OrderSchema pre-save hook for a new order (src/models/Order.js lines 168
to 188): generate the order number and append the initial history entry. -/
def orderPreSave (o : Order) (dateCode : String) (rand : Nat) (now : Nat) : Order :=
  { o with
    orderNumber := genOrderNumber dateCode rand,
    statusHistory := o.statusHistory ++ [⟨o.status, now, "Order created"⟩] }

/-- Persisting a new order: run the pre-save hook once, then the storage
layer unique index on orderNumber rejects a duplicate (never overwrites);
otherwise the order is inserted. The source performs no retry on collision. -/
def saveNewOrder (s : Store) (o : Order) (dateCode : String) (rand : Nat) (now : Nat) :
    Except Err (Order × Store) :=
  if s.orders.any (fun e => e.orderNumber == (orderPreSave o dateCode rand now).orderNumber) then
    .error .duplicateOrderNumber
  else
    .ok (orderPreSave o dateCode rand now,
      { s with orders := s.orders ++ [orderPreSave o dateCode rand now] })

/-- The delivered-date stamp shared by updateStatus and the retailer route:
if the new status is delivered and delivery info exists, set the actual
delivery date to now. -/
def stampDelivered (o : Order) (status : OrderStatus) (now : Nat) : Order :=
  if status = .delivered then
    match o.delivery with
    | some d => { o with delivery := some { d with actualDeliveryDate := some now } }
    | none => o
  else o

/-- The expected-date stamp shared by updateStatus and the retailer route:
if the new status is confirmed, delivery info exists and no expected date is
set, default it to three days from now. -/
def stampConfirmed (o : Order) (status : OrderStatus) (now : Nat) : Order :=
  if status = .confirmed then
    match o.delivery with
    | some d =>
      if d.expectedDeliveryDate = none then
        { o with delivery := some { d with expectedDeliveryDate := some (now + 3 * 24 * 60 * 60 * 1000) } }
      else o
    | none => o
  else o

/-- Order.updateStatus (src/models/Order.js lines 196 to 215): sets the
status, appends a history entry, stamps the actual delivery date on
delivered, defaults the expected delivery date on confirmed. The source
method performs no transition check of any kind. -/
def Order.updateStatus (o : Order) (status : OrderStatus) (note : String) (now : Nat) :
    Order :=
  stampConfirmed
    (stampDelivered
      { o with status := status, statusHistory := o.statusHistory ++ [⟨status, now, note⟩] }
      status now)
    status now

/-- Order.cancelOrder (src/models/Order.js lines 218 to 232): rejects only a
delivered order; otherwise sets cancelled, records the reason, appends a
history entry. -/
def Order.cancelOrder (o : Order) (reason : String) (now : Nat) : Except Err Order :=
  if o.status = .delivered then .error .cannotCancelDelivered
  else
    .ok { o with
      status := .cancelled,
      cancelReason := some reason,
      statusHistory := o.statusHistory ++ [⟨.cancelled, now, reason⟩] }

/-- Order.updatePayment (src/models/Order.js lines 235 to 251). -/
def Order.updatePayment (o : Order) (status : PayStatus) (transactionId : Option String)
    (now : Nat) : Except Err Order :=
  match o.payment with
  | none => .error .paymentInfoNotFound
  | some p =>
    let p1 := { p with status := status }
    let p2 := match transactionId with
      | some t => { p1 with transactionId := some t }
      | none => p1
    let p3 := if status = .completed then { p2 with paidAt := some now } else p2
    .ok { o with payment := some p3 }

/-- Error kinds of the retailer status-update route handler. -/
inductive RouteErr where
  | invalidStatusValue
  | forbidden
  | cancelledLocked
deriving DecidableEq, Repr

/-- The statuses the retailer route accepts (src/routes/retailer.js line 1543). -/
def settableStatuses : List OrderStatus :=
  [.confirmed, .processing, .out_for_delivery, .delivered]

/-- PUT /orders/:id/status handler body after the order is found
(src/routes/retailer.js lines 1543 to 1602): validates the requested status
against the settable set, requires the order to contain an item of the
calling retailer, rejects only orders whose current status is cancelled,
then mutates status, history and delivery dates exactly as the inlined code
does, and saves. -/
def retailerUpdateOrderStatus (o : Order) (retailerId : Nat) (status : OrderStatus)
    (now : Nat) : Except RouteErr Order :=
  if !(settableStatuses.contains status) then .error .invalidStatusValue
  else if !(o.items.any (fun i => i.retailer == retailerId)) then .error .forbidden
  else if o.status = .cancelled then .error .cancelledLocked
  else
    .ok (stampConfirmed
      (stampDelivered
        { o with
          status := status,
          statusHistory := o.statusHistory ++
            [⟨status, now, "Status updated by retailer ID: " ++ toString retailerId⟩] }
        status now)
      status now)

/-- Payment details argument of createFromCart. -/
structure PaymentInput where
  method : PayMethod
  transactionId : Option String
deriving DecidableEq, Repr

/-- Delivery details argument of createFromCart. -/
structure DeliveryInput where
  address : String
  contactPhone : String
  instructions : Option String
  fee : Option Rat
deriving DecidableEq, Repr

/-- The populate plus map step of createFromCart (lines 279 to 287): each
order line copies the cart line's quantity, captured price, name and image,
and the current retailer id of the populated product and store name. A dangling
retailer or product reference makes the populate-backed field access throw;
that is `none` here. -/
def buildOrderItem (s : Store) (i : CartItem) : Option OrderItem :=
  match findProduct s.products i.product with
  | none => none
  | some p =>
    match findRetailer s.retailers p.retailer with
    | none => none
    | some r =>
      some ⟨i.product, i.quantity, i.price, i.productName, i.productImage, p.retailer, r.storeName⟩

/-- The stock-decrement loop of createFromCart (lines 321 to 324): one
updateStock per cart line, each persisted immediately; a failure throws out
of the loop, keeping every decrement already persisted. -/
def decrementAll (s : Store) : List CartItem → Option Err × Store
  | [] => (none, s)
  | i :: rest =>
    match updateStock s i.product i.quantity with
    | .error e => (some e, s)
    | .ok s1 => decrementAll s1 rest

/-- The tax computed by createFromCart (line 291): round2 of subtotal times
the hardcoded one tenth; the cart discount is not subtracted here. -/
def orderTax (cart : Cart) : Rat :=
  round2 (cart.subtotal * (1 / 10))

/-- The total computed by createFromCart (line 293):
subtotal + tax + deliveryFee - discount. -/
def orderTotal (cart : Cart) (deliv : DeliveryInput) : Rat :=
  cart.subtotal + orderTax cart + deliv.fee.getD 0 - cart.discount

/-- The order document createFromCart passes to this.create (lines 296 to
318), before the pre-save hook runs: pending status, empty history, payment
treated as settled unless cash on delivery, expected delivery two days out. -/
def draftOrder (cart : Cart) (pay : PaymentInput) (deliv : DeliveryInput)
    (items : List OrderItem) (now : Nat) : Order :=
  { customer := cart.customer
    orderNumber := ""
    items := items
    subtotal := cart.subtotal
    discount := cart.discount
    tax := orderTax cart
    deliveryFee := deliv.fee.getD 0
    total := orderTotal cart deliv
    status := .pending
    statusHistory := []
    payment := some
      { method := pay.method
        transactionId := pay.transactionId
        status := if pay.method = .cash_on_delivery then .pending else .completed
        amount := orderTotal cart deliv
        paidAt := if pay.method = .cash_on_delivery then none else some now }
    delivery := some
      { address := deliv.address
        contactPhone := deliv.contactPhone
        instructions := deliv.instructions
        expectedDeliveryDate := some (now + 2 * 24 * 60 * 60 * 1000)
        actualDeliveryDate := none
        trackingNumber := none }
    couponCode := cart.couponCode
    cancelReason := none }

/-- Order.createFromCart (src/models/Order.js lines 254 to 330), the order
commitment pipeline, with persistence threaded explicitly: the returned
store holds every mutation persisted up to the point of a thrown error.
Steps in source order: empty-cart gate, verifyAvailability gate, order-item
snapshot, totals, order persist with pre-save hook, per-line stock decrement
loop, cart clear. -/
def createFromCart (s : Store) (cart : Cart) (pay : PaymentInput) (deliv : DeliveryInput)
    (dateCode : String) (rand : Nat) (now : Nat) :
    Except Err (Order × Cart) × Store :=
  if cart.items.isEmpty then (.error .emptyCart, s)
  else if !(verifyAvailability s.products cart).isValid then (.error .itemsUnavailable, s)
  else
    match cart.items.mapM (buildOrderItem s) with
    | none => (.error .populateFailure, s)
    | some items =>
      match saveNewOrder s (draftOrder cart pay deliv items now) dateCode rand now with
      | .error e => (.error e, s)
      | .ok (saved, s1) =>
        match decrementAll s1 cart.items with
        | (some e, s2) => (.error e, s2)
        | (none, s2) => (.ok (saved, clearCart cart), s2)

/-- Customer record, the fields the checkout route reads for delivery defaults. -/
structure Customer where
  cid : Nat
  address : String
  phone : String
deriving DecidableEq, Repr

/-- Error kinds of the customer checkout route. -/
inductive CheckoutErr where
  | paymentMethodRequired
  | cartEmpty
  | itemsUnavailable (unavailableItems : List UnavailableItem)
  | customerNotFound
  | serverError (e : Err)
deriving DecidableEq, Repr

/-- POST /order checkout handler (src/docs/authentication-api.md lines 2233
to 2313): requires a payment method, treats a missing or empty cart as
empty, runs verifyAvailability and returns the structured unavailable-item
list in the failure payload, then resolves delivery defaults from the
customer record and calls createFromCart with a fixed fee of 5; an error
thrown by createFromCart surfaces as a server error, keeping whatever state
createFromCart persisted. -/
def routeCreateOrder (s : Store) (customers : List Customer) (userId : Nat)
    (paymentMethod : Option PayMethod) (cart : Option Cart)
    (deliveryAddress : Option String) (deliveryPhone : Option String)
    (deliveryInstructions : Option String)
    (dateCode : String) (rand : Nat) (now : Nat) :
    Except CheckoutErr (Order × Cart) × Store :=
  match paymentMethod with
  | none => (.error .paymentMethodRequired, s)
  | some pm =>
    match cart with
    | none => (.error .cartEmpty, s)
    | some c =>
      if c.items.isEmpty then (.error .cartEmpty, s)
      else
        let availability := verifyAvailability s.products c
        if !availability.isValid then
          (.error (.itemsUnavailable availability.unavailableItems), s)
        else
          match customers.find? (fun cu => cu.cid == userId) with
          | none => (.error .customerNotFound, s)
          | some customer =>
            let deliv : DeliveryInput :=
              { address := deliveryAddress.getD customer.address
                contactPhone := deliveryPhone.getD customer.phone
                instructions := deliveryInstructions
                fee := some 5 }
            match createFromCart s c ⟨pm, none⟩ deliv dateCode rand now with
            | (.error e, s1) => (.error (.serverError e), s1)
            | (.ok r, s1) => (.ok r, s1)

/-! ## Derived predicates and helper operations -/

/-- The five numeric order fields fixed at creation. -/
def coreFields (o : Order) : Rat × Rat × Rat × Rat × Rat :=
  (o.subtotal, o.discount, o.tax, o.deliveryFee, o.total)

/-- Every stock value in the catalog is nonnegative. -/
def stocksNonneg (s : Store) : Prop :=
  ∀ p ∈ s.products, 0 ≤ p.stock

/-- A sequence of updateStock calls, each against the state left by the
previous one; a failed call leaves the store as it was. -/
def runDecrements (s : Store) : List (Nat × Int) → Store
  | [] => s
  | (productId, q) :: rest =>
    match updateStock s productId q with
    | .error _ => runDecrements s rest
    | .ok s1 => runDecrements s1 rest

/-! ## Concrete scenarios -/

/-- A retailer record used by the concrete scenarios. -/
def shop5 : Retailer := ⟨5, "Shop Five"⟩

/-- Scenario for the mid-commit failure counterexample: one product with stock 3. -/
def exStore1 : Store := ⟨[⟨1, "Apples", 2, 3, true, 5, ["img"]⟩], [shop5], []⟩

/-- A cart holding two lines for the same product, each of quantity 2; the
availability check passes per line (3 at least 2) yet the second decrement
fails after the first one drops stock to 1. -/
def exCart1 : Cart :=
  ⟨7, some 5, [⟨1, 2, 2, "Apples", "img", 5⟩, ⟨1, 2, 2, "Apples", "img", 5⟩], none, 0⟩

/-- Standard payment input for scenarios. -/
def exPay : PaymentInput := ⟨.cash_on_delivery, none⟩

/-- Standard delivery input for scenarios. -/
def exDeliv : DeliveryInput := ⟨"addr", "phone", none, some 5⟩

/-- The pipeline run of the mid-commit failure scenario. -/
def exRun1 : Except Err (Order × Cart) × Store :=
  createFromCart exStore1 exCart1 exPay exDeliv "251011" 7 100

/-- Scenario for the tax computation: subtotal 10, discount 5. -/
def exStore2 : Store := ⟨[⟨1, "Apples", 2, 10, true, 5, ["img"]⟩], [shop5], []⟩

/-- A cart with one line of quantity 5 at price 2 and a discount of 5. -/
def exCart2 : Cart := ⟨7, some 5, [⟨1, 5, 2, "Apples", "img", 5⟩], none, 5⟩

/-- The pipeline run of the tax scenario. -/
def exRun2 : Except Err (Order × Cart) × Store :=
  createFromCart exStore2 exCart2 exPay exDeliv "251011" 7 100

/-- A delivered order containing one line of retailer 5. -/
def exDeliveredOrder : Order :=
  { customer := 7, orderNumber := "NM-251011-0007",
    items := [⟨1, 1, 2, "Apples", "img", 5, "Shop Five"⟩],
    subtotal := 2, discount := 0, tax := 1 / 5, deliveryFee := 5, total := 36 / 5,
    status := .delivered, statusHistory := [], payment := none, delivery := none,
    couponCode := none, cancelReason := none }

/-- A cancelled order with the same shape. -/
def exCancelledOrder : Order := { exDeliveredOrder with status := .cancelled }

/-- Scenario for the checkout re-verification: product stock reduced to 1. -/
def exStore4 : Store := ⟨[⟨1, "Apples", 2, 1, true, 5, []⟩], [shop5], []⟩

/-- A cart requesting quantity 3 of that product. -/
def exCart4 : Cart := ⟨7, some 5, [⟨1, 3, 2, "Apples", "", 5⟩], none, 0⟩

/-- Catalog for the cross-retailer scenario: a retailer-2 product with zero
stock and a retailer-2 product in stock. -/
def exPs6 : List Product :=
  [⟨2, "Bread", 1, 0, true, 2, []⟩, ⟨3, "Milk", 1, 9, true, 2, []⟩]

/-- A cart holding a line captured from retailer 1. -/
def exCart6 : Cart := ⟨7, some 1, [⟨9, 1, 1, "Eggs", "", 1⟩], none, 0⟩

/-- Catalog for the re-add scenario: product 1 priced 3 with ample stock. -/
def exPs9 : List Product := [⟨1, "Apples", 3, 10, true, 5, []⟩]

/-- A cart already holding a line for product 1 with quantity 1. -/
def exCart9 : Cart := ⟨7, some 5, [⟨1, 1, 2, "Apples", "", 5⟩], none, 0⟩

/-- An empty cart of the same customer. -/
def exCart9e : Cart := ⟨7, none, [], none, 0⟩

/-- Adding product 1 with quantity 2 and then again with quantity 3. -/
def exRun9 (c : Cart) : Except Err Cart :=
  (addItem exPs9 c 1 2).bind (fun c1 => addItem exPs9 c1 1 3)

/-- An order whose number was generated from date code 251011 and draw 42. -/
def exOrder8 : Order :=
  { customer := 7, orderNumber := genOrderNumber "251011" 42, items := [],
    subtotal := 0, discount := 0, tax := 0, deliveryFee := 0, total := 0,
    status := .pending, statusHistory := [], payment := none, delivery := none,
    couponCode := none, cancelReason := none }

/-- A store already holding that order. -/
def exStore8 : Store := ⟨[], [], [exOrder8]⟩

/-- A fresh order document about to be saved. -/
def exNew8 : Order := { exOrder8 with orderNumber := "" }

/-- The order produced by the tax scenario run. -/
def exOrder2 : Order := (exRun2.1.toOption.map Prod.fst).getD exOrder8

/-- The cleared cart produced by the tax scenario run. -/
def exCart2c : Cart := (exRun2.1.toOption.map Prod.snd).getD exCart2

/-- The cart after adding product 1 with quantity 2 to the empty cart. -/
def exC9a : Cart := ⟨7, some 5, [⟨1, 2, 3, "Apples", "", 5⟩], none, 0⟩

/-- The cart after then adding product 1 with quantity 3. -/
def exC9b : Cart := ⟨7, some 5, [⟨1, 5, 3, "Apples", "", 5⟩], none, 0⟩

/-! ## Helper lemmas -/

/-- Evaluation rule for round2 at a concrete floor value. -/
theorem round2_eval {q : Rat} {z : Int} (h1 : (z : Rat) ≤ q * 100 + 1 / 2)
    (h2 : q * 100 + 1 / 2 < z + 1) : round2 q = (z : Rat) / 100 := by
  unfold round2
  have hz : ⌊q * 100 + 1 / 2⌋ = z := Int.floor_eq_iff.mpr ⟨h1, h2⟩
  rw [hz]

/-- The cart pre-save hook never alters the item list. -/
theorem cartPreSave_ok_items {c c' : Cart} (h : cartPreSave c = .ok c') :
    c'.items = c.items := by
  rcases hc : c.items with _ | ⟨first, rest⟩ <;> simp only [cartPreSave, hc] at h
  · exact (congrArg Cart.items (Except.ok.inj h).symm).trans hc
  · split at h
    · exact congrArg Cart.items (Except.ok.inj h).symm
    · cases h

/-- Any cart accepted by the pre-save hook has all line items from one
retailer. -/
theorem cartPreSave_ok_same_retailer {c c' : Cart} (h : cartPreSave c = .ok c') :
    ∀ i ∈ c'.items, ∀ j ∈ c'.items, i.retailerId = j.retailerId := by
  have hitems := cartPreSave_ok_items h
  rcases hc : c.items with _ | ⟨first, rest⟩
  · intro i hi
    rw [hitems, hc] at hi
    cases hi
  · simp only [cartPreSave, hc] at h
    split at h
    next hall =>
      have hfirst : ∀ k ∈ first :: rest, k.retailerId = first.retailerId := by
        intro k hk
        rcases List.mem_cons.mp hk with rfl | hk
        · rfl
        · exact beq_iff_eq.mp (List.all_eq_true.mp hall k hk)
      intro i hi j hj
      rw [hitems, hc] at hi hj
      rw [hfirst i hi, hfirst j hj]
    next => cases h

/-- Unpacking a successful saveNewOrder: the stored order is the pre-save
transform of the input, appended to the order list. -/
theorem saveNewOrder_ok {s : Store} {o : Order} {dc : String} {r n : Nat}
    {o' : Order} {s' : Store} (h : saveNewOrder s o dc r n = .ok (o', s')) :
    o' = orderPreSave o dc r n ∧ s' = { s with orders := s.orders ++ [o'] } := by
  unfold saveNewOrder at h
  split at h
  · cases h
  · have h2 := Except.ok.inj h
    have hfst : orderPreSave o dc r n = o' := congrArg Prod.fst h2
    have hsnd : { s with orders := s.orders ++ [orderPreSave o dc r n] } = s' :=
      congrArg Prod.snd h2
    exact ⟨hfst.symm, by rw [← hsnd, hfst]⟩

/-- updateStock only ever fails with NotFound or InsufficientStock. -/
theorem updateStock_error_kind {s : Store} {productId : Nat} {quantity : Int} {e : Err}
    (h : updateStock s productId quantity = .error e) :
    e = .productNotFound ∨ e = .insufficientStock := by
  unfold updateStock at h
  split at h
  · exact Or.inl (Except.error.inj h).symm
  · split at h
    · exact Or.inr (Except.error.inj h).symm
    · cases h

/-- An error escaping the decrement loop is one of the two updateStock error
kinds. -/
theorem decrementAll_error_kind {items : List CartItem} {s s2 : Store} {e : Err}
    (h : decrementAll s items = (some e, s2)) :
    e = .productNotFound ∨ e = .insufficientStock := by
  induction items generalizing s with
  | nil => simp [decrementAll] at h
  | cons i rest ih =>
    simp only [decrementAll] at h
    split at h
    next e' heq =>
      have he : e' = e := Option.some.inj (congrArg Prod.fst h)
      exact he ▸ updateStock_error_kind heq
    next s1 heq => exact ih h

/-- The delivered-date stamp never touches the five numeric fields. -/
theorem coreFields_stampDelivered (o : Order) (st : OrderStatus) (n : Nat) :
    coreFields (stampDelivered o st n) = coreFields o := by
  unfold stampDelivered coreFields
  split
  · split <;> rfl
  · rfl

/-- The expected-date stamp never touches the five numeric fields. -/
theorem coreFields_stampConfirmed (o : Order) (st : OrderStatus) (n : Nat) :
    coreFields (stampConfirmed o st n) = coreFields o := by
  unfold stampConfirmed coreFields
  split
  · split
    · split <;> rfl
    · rfl
  · rfl

/-- updateStatus never touches the five numeric fields. -/
theorem coreFields_updateStatus (o : Order) (st : OrderStatus) (note : String) (t : Nat) :
    coreFields (Order.updateStatus o st note t) = coreFields o := by
  unfold Order.updateStatus
  rw [coreFields_stampConfirmed, coreFields_stampDelivered]
  rfl

/-- A successful cancelOrder never touches the five numeric fields. -/
theorem coreFields_cancelOrder {o o2 : Order} {reason : String} {t : Nat}
    (h : Order.cancelOrder o reason t = .ok o2) : coreFields o2 = coreFields o := by
  unfold Order.cancelOrder at h
  split at h
  · cases h
  · have h2 := (Except.ok.inj h).symm
    subst h2
    rfl

/-- A successful updatePayment never touches the five numeric fields. -/
theorem coreFields_updatePayment {o o2 : Order} {ps : PayStatus} {tx : Option String} {t : Nat}
    (h : Order.updatePayment o ps tx t = .ok o2) : coreFields o2 = coreFields o := by
  unfold Order.updatePayment at h
  split at h
  · cases h
  · have h2 := (Except.ok.inj h).symm
    subst h2
    rfl

/-- A successful retailer route status update never touches the five
numeric fields. -/
theorem coreFields_retailerUpdate {o o2 : Order} {rid : Nat} {st : OrderStatus} {t : Nat}
    (h : retailerUpdateOrderStatus o rid st t = .ok o2) :
    coreFields o2 = coreFields o := by
  unfold retailerUpdateOrderStatus at h
  split at h
  · cases h
  · split at h
    · cases h
    · split at h
      · cases h
      · have h2 := (Except.ok.inj h).symm
        subst h2
        rw [coreFields_stampConfirmed, coreFields_stampDelivered]
        rfl

/-- A successful updateStock preserves stock nonnegativity. -/
theorem updateStock_ok_nonneg {s s' : Store} {productId : Nat} {q : Int}
    (hs : stocksNonneg s) (h : updateStock s productId q = .ok s') : stocksNonneg s' := by
  unfold updateStock at h
  split at h
  · cases h
  next p hp =>
    split at h
    · cases h
    next hlt =>
      have hs2 := (Except.ok.inj h).symm
      subst hs2
      intro q' hq'
      simp only [saveProduct, List.mem_map] at hq'
      obtain ⟨orig, horig, hq'⟩ := hq'
      by_cases hpid : (orig.pid == p.pid) = true
      · rw [if_pos hpid] at hq'
        rw [← hq']
        exact Int.sub_nonneg.mpr (le_of_not_lt hlt)
      · rw [if_neg hpid] at hq'
        rw [← hq']
        exact hs orig horig

/-- Any sequence of updateStock calls keeps every stock nonnegative. -/
theorem runDecrements_nonneg (calls : List (Nat × Int)) (s : Store) (hs : stocksNonneg s) :
    stocksNonneg (runDecrements s calls) := by
  induction calls generalizing s with
  | nil => exact hs
  | cons c rest ih =>
    obtain ⟨productId, q⟩ := c
    simp only [runDecrements]
    split
    · exact ih s hs
    next s1 heq => exact ih s1 (updateStock_ok_nonneg hs heq)

/-- Unpacking a successful pipeline run: the order fields are the draft
totals, and the returned cart is the cleared cart. -/
theorem createFromCart_ok_shape {s : Store} {cart : Cart} {pay : PaymentInput}
    {deliv : DeliveryInput} {dc : String} {r n : Nat} {o : Order} {c' : Cart}
    (h : (createFromCart s cart pay deliv dc r n).1 = .ok (o, c')) :
    o.subtotal = cart.subtotal ∧ o.discount = cart.discount ∧
    o.tax = orderTax cart ∧
    o.deliveryFee = deliv.fee.getD 0 ∧
    o.total = orderTotal cart deliv ∧
    c' = clearCart cart := by
  unfold createFromCart at h
  split at h
  · cases h
  · split at h
    · cases h
    · split at h
      · cases h
      next items hitems =>
        split at h
        · cases h
        next saved s1 hsave =>
          split at h
          · cases h
          next s2 hdec =>
            have h2 := Except.ok.inj h
            have ho : saved = o := congrArg Prod.fst h2
            have hc : clearCart cart = c' := congrArg Prod.snd h2
            obtain ⟨hsaved, _⟩ := saveNewOrder_ok hsave
            refine ⟨?_, ?_, ?_, ?_, ?_, hc.symm⟩ <;> rw [← ho, hsaved] <;> rfl

/-- Bumping a product that does not occur in a list passes over that list. -/
theorem bumpItem_append_no_match {l : List CartItem} {productId : Nat} {q : Int} {pr : Rat}
    (hl : ∀ i ∈ l, ¬ i.product = productId) (x : CartItem) :
    bumpItem productId q pr (l ++ [x]) = l ++ bumpItem productId q pr [x] := by
  induction l with
  | nil => rfl
  | cons a as ih =>
    have ha : (a.product == productId) = false :=
      beq_eq_false_iff_ne.mpr (hl a (List.mem_cons_self a as))
    simp only [List.cons_append, bumpItem, ha, Bool.false_eq_true, if_false, List.cons.injEq,
      true_and]
    exact ih (fun i hi => hl i (List.mem_cons_of_mem a hi))

/-- Filtering for a product that does not occur in a list drops that list. -/
theorem filter_append_no_match {l : List CartItem} {productId : Nat}
    (hl : ∀ i ∈ l, ¬ i.product = productId) (l2 : List CartItem) :
    (l ++ l2).filter (fun i => i.product == productId) =
      l2.filter (fun i => i.product == productId) := by
  rw [List.filter_append]
  have : l.filter (fun i => i.product == productId) = [] := by
    rw [List.filter_eq_nil_iff]
    intro a ha
    simp only [beq_iff_eq]
    exact hl a ha
  rw [this, List.nil_append]

/-! ## Claims -/

/-- C1 counterexample: in the scenario with product 1 at stock 3 and a cart
holding two lines of quantity 2 for it, the pipeline fails on the second
stock decrement, yet an order record has been created and the product stock
has been mutated from 3 down to 1 — refuting that every failing invocation
leaves no order created and no stock mutated. -/
theorem c1_decrement_failure_counterexample :
    exRun1.1 = .error .insufficientStock ∧
    exRun1.2.orders.length = 1 ∧
    (findProduct exRun1.2.products 1).map Product.stock = some 1 ∧
    (findProduct exStore1.products 1).map Product.stock = some 3 :=
  ⟨rfl, rfl, rfl, rfl⟩

/-- C1 (amended): a pipeline failure detected before the order is persisted
(empty cart, failed availability verification, failed order-item populate,
order-number collision at persist) aborts with the store unchanged: no
order created and no stock mutated. A stock decrement failure, by contrast,
happens after the order is persisted and is not compensated. -/
theorem c1_abort_before_persist (s : Store) (cart : Cart) (pay : PaymentInput)
    (deliv : DeliveryInput) (dc : String) (r n : Nat) (e : Err)
    (h : (createFromCart s cart pay deliv dc r n).1 = .error e)
    (he : e = .emptyCart ∨ e = .itemsUnavailable ∨ e = .populateFailure ∨
      e = .duplicateOrderNumber) :
    (createFromCart s cart pay deliv dc r n).2 = s := by
  revert h
  unfold createFromCart
  split
  · intro _
    rfl
  · split
    · intro _
      rfl
    · split
      · intro _
        rfl
      · split
        · intro _
          rfl
        next saved s1 hsave =>
          split
          next e2 s2 hdec =>
            intro h
            have he2 : e2 = e := Except.error.inj h
            subst he2
            rcases decrementAll_error_kind hdec with h1 | h1 <;>
              rcases he with h2 | h2 | h2 | h2 <;> rw [h1] at h2 <;> cases h2
          next s2 hdec =>
            intro h
            cases h

/-- C1 witness: committing an empty cart fails and leaves the store intact. -/
theorem c1_abort_witness :
    (createFromCart exStore1 (clearCart exCart1) exPay exDeliv "251011" 7 100).2 = exStore1 :=
  c1_abort_before_persist exStore1 (clearCart exCart1) exPay exDeliv "251011" 7 100 .emptyCart
    rfl (Or.inl rfl)

/-- C2 counterexample: in the scenario with subtotal 10 and discount 5, the
committed order carries tax 1 whereas round2 of (subtotal - discount) times
the one-tenth rate is one half — the order tax is not computed from the
discounted subtotal. -/
theorem c2_tax_ignores_discount_counterexample :
    exRun2.1.map (fun r => r.1.tax) = .ok (orderTax exCart2) ∧
    orderTax exCart2 = 1 ∧
    round2 ((exCart2.subtotal - exCart2.discount) * (1 / 10)) = 1 / 2 ∧
    (1 : Rat) ≠ 1 / 2 := by
  have hsub : exCart2.subtotal = 10 := by
    simp only [Cart.subtotal, exCart2, List.foldl_cons, List.foldl_nil]
    norm_num
  have hdis : exCart2.discount = 5 := rfl
  refine ⟨rfl, ?_, ?_, by norm_num⟩
  · unfold orderTax
    rw [hsub, round2_eval (z := 100) (by norm_num) (by norm_num)]
    norm_num
  · rw [hsub, hdis, round2_eval (z := 50) (by norm_num) (by norm_num)]
    norm_num

/-- C2 (amended): every order committed by the pipeline has tax equal to
round2 of the cart subtotal times the hardcoded one-tenth rate, with the
discount not subtracted before applying the rate. -/
theorem c2_tax_on_subtotal (s : Store) (cart : Cart) (pay : PaymentInput)
    (deliv : DeliveryInput) (dc : String) (r n : Nat) (o : Order) (c' : Cart)
    (h : (createFromCart s cart pay deliv dc r n).1 = .ok (o, c')) :
    o.tax = round2 (cart.subtotal * (1 / 10)) :=
  (createFromCart_ok_shape h).2.2.1

/-- C2 witness: the tax scenario order evaluates per the amended formula. -/
theorem c2_tax_witness : exOrder2.tax = round2 (exCart2.subtotal * (1 / 10)) :=
  c2_tax_on_subtotal exStore2 exCart2 exPay exDeliv "251011" 7 100 exOrder2 exCart2c rfl

/-- C3 counterexample: a delivered order accepts a retailer status update
back to confirmed (the route only rejects cancelled orders), and a
cancelled order accepts a further cancel (cancelOrder only rejects
delivered orders) — refuting that both operations always fail on both
terminal states. -/
theorem c3_terminal_absorption_counterexample :
    (retailerUpdateOrderStatus exDeliveredOrder 5 .confirmed 1000).map Order.status =
      .ok .confirmed ∧
    (Order.cancelOrder exCancelledOrder "again" 5).map Order.status = .ok .cancelled :=
  ⟨rfl, rfl⟩

/-- C3 (amended): given a settable requested status and retailer
authorization, the route status update fails with InvalidTransition exactly
when the current status is cancelled, and cancel fails with
InvalidTransition exactly when the current status is delivered; the other
terminal state is not checked by either operation. -/
theorem c3_terminal_checks (o : Order) (rid : Nat) (st : OrderStatus) (t : Nat)
    (reason : String)
    (hst : settableStatuses.contains st = true)
    (hauth : o.items.any (fun i => i.retailer == rid) = true) :
    (o.status = .cancelled → retailerUpdateOrderStatus o rid st t = .error .cancelledLocked) ∧
    (o.status = .delivered → Order.cancelOrder o reason t = .error .cannotCancelDelivered) := by
  constructor
  · intro hc
    unfold retailerUpdateOrderStatus
    rw [hst, hauth, hc]
    simp
  · intro hd
    unfold Order.cancelOrder
    rw [if_pos hd]

/-- C3 witness: the checks fire on a concrete cancelled and a concrete
delivered order. -/
theorem c3_terminal_witness :
    retailerUpdateOrderStatus exCancelledOrder 5 .confirmed 9 = .error .cancelledLocked ∧
    Order.cancelOrder exDeliveredOrder "no" 9 = .error .cannotCancelDelivered :=
  ⟨(c3_terminal_checks exCancelledOrder 5 .confirmed 9 "no" rfl rfl).1 rfl,
   (c3_terminal_checks exDeliveredOrder 5 .confirmed 9 "no" rfl rfl).2 rfl⟩

/-- C4: when the cart holds one line requesting quantity 3 of a product
whose stock has dropped to 1 (still flagged available), the checkout route
fails with ItemsUnavailable whose payload lists that product with requested
3 and available 1, and returns the store unchanged: no order is created and
the product stock is untouched. -/
theorem c4_checkout_reverification (s : Store) (customers : List Customer) (userId : Nat)
    (pm : PayMethod) (cart : Cart) (item : CartItem) (p : Product)
    (da dp di : Option String) (dc : String) (r n : Nat)
    (hitems : cart.items = [item]) (hq : item.quantity = 3)
    (hp : findProduct s.products item.product = some p)
    (hstock : p.stock = 1) (hav : p.isAvailable = true) :
    routeCreateOrder s customers userId (some pm) (some cart) da dp di dc r n =
      (.error (.itemsUnavailable [⟨item.product, item.productName, 3, 1, true⟩]), s) := by
  unfold routeCreateOrder
  simp only [verifyAvailability, checkItem, hitems, hp, hq, hav, hstock,
    List.filterMap_cons, List.filterMap_nil, List.isEmpty_cons, List.isEmpty_nil]
  norm_num

/-- C4 witness: the concrete stock-raced scenario. -/
theorem c4_checkout_witness :
    routeCreateOrder exStore4 [⟨7, "a", "p"⟩] 7 (some .cash_on_delivery) (some exCart4)
      none none none "251011" 7 100 =
      (.error (.itemsUnavailable [⟨1, "Apples", 3, 1, true⟩]), exStore4) :=
  c4_checkout_reverification exStore4 [⟨7, "a", "p"⟩] 7 .cash_on_delivery exCart4
    ⟨1, 3, 2, "Apples", "", 5⟩ ⟨1, "Apples", 2, 1, true, 5, []⟩ none none none "251011" 7 100
    rfl rfl rfl rfl rfl

/-- C5: every order the pipeline commits satisfies
total = subtotal - discount + tax + deliveryFee at creation, and none of
updateStatus, cancelOrder, updatePayment or the retailer route status
update ever changes any of those five numeric fields. -/
theorem c5_total_invariant (s : Store) (cart : Cart) (pay : PaymentInput)
    (deliv : DeliveryInput) (dc : String) (r n : Nat) (o : Order) (c' : Cart)
    (h : (createFromCart s cart pay deliv dc r n).1 = .ok (o, c')) :
    o.total = o.subtotal - o.discount + o.tax + o.deliveryFee ∧
    (∀ st note t, coreFields (Order.updateStatus o st note t) = coreFields o) ∧
    (∀ reason t o2, Order.cancelOrder o reason t = .ok o2 → coreFields o2 = coreFields o) ∧
    (∀ ps tx t o2, Order.updatePayment o ps tx t = .ok o2 → coreFields o2 = coreFields o) ∧
    (∀ rid st t o2, retailerUpdateOrderStatus o rid st t = .ok o2 →
      coreFields o2 = coreFields o) := by
  obtain ⟨h1, h2, h3, h4, h5, _⟩ := createFromCart_ok_shape h
  refine ⟨?_, fun st note t => coreFields_updateStatus o st note t,
    fun reason t o2 hh => coreFields_cancelOrder hh,
    fun ps tx t o2 hh => coreFields_updatePayment hh,
    fun rid st t o2 hh => coreFields_retailerUpdate hh⟩
  rw [h1, h2, h3, h4, h5]
  unfold orderTotal
  ring

/-- C5 witness: the creation equation holds on the concrete committed order. -/
theorem c5_total_witness :
    exOrder2.total = exOrder2.subtotal - exOrder2.discount + exOrder2.tax +
      exOrder2.deliveryFee :=
  (c5_total_invariant exStore2 exCart2 exPay exDeliv "251011" 7 100 exOrder2 exCart2c rfl).1

/-- C6 counterexample: adding the retailer-2 product with zero stock to a
cart holding a retailer-1 line fails with the unavailable error, not with
CrossRetailerConflict — the stock check precedes the retailer check, so a
cross-retailer add does not always fail with CrossRetailerConflict. -/
theorem c6_cross_retailer_counterexample :
    addItem exPs6 exCart6 2 1 = .error .unavailableOrInsufficient ∧
    Err.unavailableOrInsufficient ≠ Err.crossRetailer :=
  ⟨rfl, by decide⟩

/-- C6 (amended): adding a product of a different retailer to a non-empty
cart fails with CrossRetailerConflict whenever the product exists, is
available, has sufficient stock, and is not already a line of the cart
(otherwise NotFound or Unavailable preempt, and an existing line merges
without a retailer check); the failed save persists nothing; and every cart
accepted by the persistence hook has all line items from one retailer. -/
theorem c6_cross_retailer_amended (ps : List Product) (c : Cart) (productId : Nat)
    (q : Int) (product : Product) (first : CartItem) (rest : List CartItem)
    (hfind : findProduct ps productId = some product)
    (hav : product.isAvailable = true)
    (hstock : q ≤ product.stock)
    (hnotin : ∀ i ∈ c.items, ¬ i.product = productId)
    (hc : c.items = first :: rest)
    (hdiff : ¬ first.retailerId = product.retailer) :
    addItem ps c productId q = .error .crossRetailer ∧
    (∀ c1 c2 : Cart, cartPreSave c1 = .ok c2 →
      ∀ i ∈ c2.items, ∀ j ∈ c2.items, i.retailerId = j.retailerId) := by
  refine ⟨?_, fun c1 c2 hh => cartPreSave_ok_same_retailer hh⟩
  unfold addItem
  rw [hfind]
  have hlt : (decide (product.stock < q)) = false := decide_eq_false (not_lt.mpr hstock)
  have hany : (c.items.any (fun i => i.product == productId)) = false := by
    rw [List.any_eq_false]
    intro i hi
    simp only [beq_iff_eq]
    exact hnotin i hi
  simp only [hav, Bool.not_true, hlt, Bool.or_self, Bool.false_eq_true, if_false, hany]
  have hall : ((rest ++
      [(⟨productId, q, product.price, product.name, product.images.headD "",
        product.retailer⟩ : CartItem)]).all
      (fun i => i.retailerId == first.retailerId)) = false := by
    rw [List.all_eq_false]
    refine ⟨⟨productId, q, product.price, product.name, product.images.headD "",
      product.retailer⟩, List.mem_append_right _ (List.mem_singleton_self _), ?_⟩
    simp only [beq_iff_eq]
    exact fun hcc => hdiff hcc.symm
  simp only [cartPreSave, hc, List.cons_append, hall, Bool.false_eq_true, if_false]

/-- C6 witness: adding the in-stock retailer-2 product to the retailer-1
cart fails with the cross-retailer error. -/
theorem c6_cross_retailer_witness :
    addItem exPs6 exCart6 3 1 = .error .crossRetailer :=
  (c6_cross_retailer_amended exPs6 exCart6 3 1 ⟨3, "Milk", 1, 9, true, 2, []⟩
    ⟨9, 1, 1, "Eggs", "", 1⟩ [] rfl rfl (by decide) (by decide) rfl (by decide)).1

/-- C7: updateStock fails with NotFound when the product is absent, fails
with InsufficientStock when stock is below the requested quantity,
otherwise persists stock minus quantity; and along any sequence of such
calls every stored stock value stays nonnegative. -/
theorem c7_decrement_stock (s : Store) (productId : Nat) (quantity : Int) :
    (findProduct s.products productId = none →
      updateStock s productId quantity = .error .productNotFound) ∧
    (∀ p, findProduct s.products productId = some p → p.stock < quantity →
      updateStock s productId quantity = .error .insufficientStock) ∧
    (∀ p, findProduct s.products productId = some p → quantity ≤ p.stock →
      updateStock s productId quantity =
        .ok { s with
          products := saveProduct s.products { p with stock := p.stock - quantity } }) ∧
    (stocksNonneg s → ∀ calls : List (Nat × Int), stocksNonneg (runDecrements s calls)) := by
  refine ⟨?_, ?_, ?_, fun hs calls => runDecrements_nonneg calls s hs⟩
  · intro hnone
    simp only [updateStock, hnone]
  · intro p hp hlt
    simp only [updateStock, hp, if_pos hlt]
  · intro p hp hle
    simp only [updateStock, hp, if_neg (not_lt.mpr hle)]

/-- C7 witness: the three behaviours and nonnegativity on concrete data. -/
theorem c7_decrement_witness :
    updateStock exStore1 99 1 = .error .productNotFound ∧
    updateStock exStore1 1 5 = .error .insufficientStock ∧
    updateStock exStore1 1 2 =
      .ok { exStore1 with
        products := saveProduct exStore1.products ⟨1, "Apples", 2, 1, true, 5, ["img"]⟩ } ∧
    stocksNonneg (runDecrements exStore1 [(1, 2), (1, 2)]) :=
  ⟨(c7_decrement_stock exStore1 99 1).1 rfl,
   (c7_decrement_stock exStore1 1 5).2.1 ⟨1, "Apples", 2, 3, true, 5, ["img"]⟩ rfl (by decide),
   (c7_decrement_stock exStore1 1 2).2.2.1 ⟨1, "Apples", 2, 3, true, 5, ["img"]⟩ rfl (by decide),
   (c7_decrement_stock exStore1 0 0).2.2.2
     (by
       intro p hp
       rw [List.mem_singleton.mp hp]
       decide)
     [(1, 2), (1, 2)]⟩

/-- C8 counterexample: with an order numbered from draw 42 already stored,
saving a new order with draw 42 fails with the duplicate-number Conflict at
once, although the very same save with the next draw 43 succeeds — so a
collision aborts order creation directly and no internal retry exists. -/
theorem c8_no_retry_counterexample :
    saveNewOrder exStore8 exNew8 "251011" 42 0 = .error .duplicateOrderNumber ∧
    (saveNewOrder exStore8 exNew8 "251011" 43 0).isOk = true :=
  ⟨rfl, rfl⟩

/-- C8 (amended): order numbers are the date prefix plus the four-digit
random suffix; a save whose generated number already exists fails with
Conflict immediately (no retry, nothing overwritten), and a successful save
stores exactly the generated number, appends the order, and certifies the
number was free. -/
theorem c8_collision_conflict (s : Store) (o : Order) (dc : String) (r n : Nat) :
    (s.orders.any (fun e => e.orderNumber == genOrderNumber dc r) = true →
      saveNewOrder s o dc r n = .error .duplicateOrderNumber) ∧
    (∀ o' s', saveNewOrder s o dc r n = .ok (o', s') →
      o'.orderNumber = genOrderNumber dc r ∧
      s'.orders = s.orders ++ [o'] ∧
      s.orders.any (fun e => e.orderNumber == o'.orderNumber) = false) := by
  constructor
  · intro hcoll
    unfold saveNewOrder
    have hnum : (orderPreSave o dc r n).orderNumber = genOrderNumber dc r := rfl
    rw [hnum, if_pos hcoll]
  · intro o' s' h
    obtain ⟨ho, hs⟩ := saveNewOrder_ok h
    subst ho
    refine ⟨rfl, by rw [hs], ?_⟩
    unfold saveNewOrder at h
    split at h
    · cases h
    next hfalse => exact Bool.eq_false_iff.mpr hfalse

/-- C8 witness: the collision case fires on the concrete store. -/
theorem c8_collision_witness :
    saveNewOrder exStore8 exNew8 "251011" 42 5 = .error .duplicateOrderNumber :=
  (c8_collision_conflict exStore8 exNew8 "251011" 42 5).1 rfl

/-- C9 counterexample: on a cart that already held product 1 with quantity
1, adding quantity 2 and then quantity 3 yields one line of quantity 6, not
5 — the claim does not hold for every cart. -/
theorem c9_readd_counterexample :
    (exRun9 exCart9).map
      (fun c => (c.items.filter (fun i => i.product == 1)).map (fun i => i.quantity)) =
      .ok [6] ∧
    (6 : Int) ≠ 5 :=
  ⟨rfl, by decide⟩

/-- C9 (amended): on a cart with no existing line for the product, if both
adds succeed then the cart holds exactly one line for it, with quantity 5
and unit price equal to the product catalog price at the second add. -/
theorem c9_readd_amended (ps1 ps2 : List Product) (c c1 c2 : Cart) (productId : Nat)
    (p2 : Product)
    (hno : ∀ i ∈ c.items, ¬ i.product = productId)
    (h1 : addItem ps1 c productId 2 = .ok c1)
    (hp2 : findProduct ps2 productId = some p2)
    (h2 : addItem ps2 c1 productId 3 = .ok c2) :
    (c2.items.filter (fun i => i.product == productId)).map (fun i => (i.quantity, i.price)) =
      [(5, p2.price)] := by
  unfold addItem at h1
  split at h1
  · cases h1
  next p1 hfind1 =>
    split at h1
    · cases h1
    · split at h1
      next hany =>
        obtain ⟨i, hi, hbeq⟩ := List.any_eq_true.mp hany
        exact absurd (beq_iff_eq.mp hbeq) (hno i hi)
      next hany =>
        have hitems1 : c1.items = c.items ++
            [⟨productId, 2, p1.price, p1.name, p1.images.headD "", p1.retailer⟩] :=
          cartPreSave_ok_items h1
        unfold addItem at h2
        split at h2
        · cases h2
        next p2x hfind2 =>
          have hp2x : p2x = p2 := Option.some.inj (hfind2.symm.trans hp2)
          rw [hp2x] at h2
          split at h2
          · cases h2
          · have hany2 : (c1.items.any (fun i => i.product == productId)) = true := by
              rw [hitems1, List.any_append]
              simp
            rw [if_pos hany2] at h2
            have hitems2 : c2.items =
                bumpItem productId 3 p2.price c1.items := cartPreSave_ok_items h2
            rw [hitems2, hitems1,
              bumpItem_append_no_match hno,
              filter_append_no_match hno]
            simp only [bumpItem, beq_self_eq_true, if_true, List.filter_cons,
              beq_self_eq_true]
            rfl

/-- C9 witness: the amended statement on the concrete empty-cart scenario. -/
theorem c9_readd_witness :
    (exC9b.items.filter (fun i => i.product == 1)).map (fun i => (i.quantity, i.price)) =
      [(5, 3)] :=
  c9_readd_amended exPs9 exPs9 exCart9e exC9a exC9b 1 ⟨1, "Apples", 3, 10, true, 5, []⟩
    (by intro i hi; cases hi) rfl rfl rfl

/-- C10: a cart line whose product no longer exists makes verifyAvailability
return isValid false with a structured entry for that line carrying
available 0 and isAvailable false, through the same result shape as any
other unavailable line (the function is total and raises nothing). -/
theorem c10_deleted_product_reported (ps : List Product) (c : Cart) (i : CartItem)
    (hmem : i ∈ c.items) (habs : findProduct ps i.product = none) :
    (verifyAvailability ps c).isValid = false ∧
    (⟨i.product, i.productName, i.quantity, 0, false⟩ : UnavailableItem) ∈
      (verifyAvailability ps c).unavailableItems := by
  have hcheck : checkItem ps i = some ⟨i.product, i.productName, i.quantity, 0, false⟩ := by
    unfold checkItem
    rw [habs]
  have hmem2 : (⟨i.product, i.productName, i.quantity, 0, false⟩ : UnavailableItem) ∈
      c.items.filterMap (checkItem ps) :=
    List.mem_filterMap.mpr ⟨i, hmem, hcheck⟩
  constructor
  · show (c.items.filterMap (checkItem ps)).isEmpty = false
    cases hl : c.items.filterMap (checkItem ps) with
    | nil =>
      rw [hl] at hmem2
      cases hmem2
    | cons a as => rfl
  · show _ ∈ c.items.filterMap (checkItem ps)
    exact hmem2

/-- C10 witness: a line referencing product 1 against an empty catalog. -/
theorem c10_deleted_witness :
    (verifyAvailability [] exCart4).isValid = false ∧
    (⟨1, "Apples", 3, 0, false⟩ : UnavailableItem) ∈
      (verifyAvailability [] exCart4).unavailableItems :=
  c10_deleted_product_reported [] exCart4 ⟨1, 3, 2, "Apples", "", 5⟩
    (List.mem_singleton_self _) rfl

end NearMart
